import Mathlib

/-!
Shallow embedding of the VPU StridedSlice stage
(`inference-engine/src/vpu/graph_transformer/src/stages/strided_slice.cpp`).

Machine integers are modelled as `Nat` with explicit `% 2 ^ 32` where 32-bit
overflow matters.  C++ exceptions (`VPU_THROW_FORMAT`, `VPU_THROW_UNLESS`)
are modelled as `Except VpuError` results.  Entities whose C++ definitions
live outside the translated file (layer attribute lookup, fake-data creation,
the generic type assertion helper) are modelled from the specification and
marked as such in their doc comments.
-/

namespace VpuSS

/-- Element types of tensors, a closed enumeration.  The file only
distinguishes signed 32-bit integers (`DataType::S32`) from everything
else; `fp16`, `fp32` and `u8` stand for the other members. -/
inductive DataType where
  | fp16
  | fp32
  | s32
  | u8
  deriving DecidableEq

/-- The failure cases raised by the translated code.  `maskFormat` is the
`VPU_THROW_FORMAT` in `maskStrToInt`; the others are the `VPU_THROW_UNLESS`
sites of `parseStridedSlice` / `initialCheckImpl`, plus the type assertion
failure of `assertInputsOutputsTypes`. -/
inductive VpuError where
  | maskFormat (c : Char)
  | wrongNumInputs (n : Nat)
  | wrongNumOutputs (n : Nat)
  | unsupportedMask (k : List Char)
  | typesCheckFailed
  | stridesNull
  | negativeStride (i : Nat)
  | internalError
  deriving DecidableEq

instance {ε α : Type} [DecidableEq ε] [DecidableEq α] : DecidableEq (Except ε α) :=
  fun a b =>
  match a, b with
  | .error e, .error f => decidable_of_iff (e = f) (by simp)
  | .error _, .ok _ => isFalse (by simp)
  | .ok _, .error _ => isFalse (by simp)
  | .ok v, .ok w => decidable_of_iff (v = w) (by simp)

/-- Loop body of `maskStrToInt`: scans the remaining characters carrying the
accumulated `result` (a `uint32`, kept below `2 ^ 32`) and the bit index
`idx`.  `','` is skipped without advancing `idx`; `'1'` ORs in `0x1 << idx`
(truncated to 32 bits, as the `uint32` accumulator is); `'0'` only advances
`idx`; any other character raises the format error. -/
def maskStrToIntGo : List Char → Nat → Nat → Except VpuError Nat
  | [], result, _ => .ok result
  | c :: rest, result, idx =>
    if c = ',' then maskStrToIntGo rest result idx
    else if c = '1' then
      maskStrToIntGo rest ((result ||| ((1 <<< idx) % 2 ^ 32)) % 2 ^ 32) (idx + 1)
    else if c = '0' then maskStrToIntGo rest result (idx + 1)
    else .error (.maskFormat c)

/-- `maskStrToInt` from the source file: converts a textual mask (a string
over `'0'`, `'1'`, `','`) into a packed 32-bit integer, bit `i` of the
result corresponding to the `i`-th non-separator character. -/
def maskStrToInt (mask : List Char) : Except VpuError Nat :=
  maskStrToIntGo mask 0 0

/-- Mathematical value of a separator-free flag list: bit `i` is set iff
element `i` is `'1'`.  Used only to state and prove the characterization of
`maskStrToInt`. -/
def encBits : List Char → Nat
  | [] => 0
  | c :: rest => (if c = '1' then 1 else 0) + 2 * encBits rest

/-- A mask character the codec accepts. -/
def maskCharOk (c : Char) : Prop := c = ',' ∨ c = '0' ∨ c = '1'

instance (c : Char) : Decidable (maskCharOk c) := by
  unfold maskCharOk
  infer_instance

/-- Attribute key `begin_mask`. -/
def beginMaskKey : List Char := ['b', 'e', 'g', 'i', 'n', '_', 'm', 'a', 's', 'k']

/-- Attribute key `end_mask`. -/
def endMaskKey : List Char := ['e', 'n', 'd', '_', 'm', 'a', 's', 'k']

/-- Attribute key `new_axis_mask`. -/
def newAxisMaskKey : List Char :=
  ['n', 'e', 'w', '_', 'a', 'x', 'i', 's', '_', 'm', 'a', 's', 'k']

/-- Attribute key `shrink_axis_mask`. -/
def shrinkAxisMaskKey : List Char :=
  ['s', 'h', 'r', 'i', 'n', 'k', '_', 'a', 'x', 'i', 's', '_', 'm', 'a', 's', 'k']

/-- Attribute key `ellipsis_mask`. -/
def ellipsisMaskKey : List Char :=
  ['e', 'l', 'l', 'i', 'p', 's', 'i', 's', '_', 'm', 'a', 's', 'k']

/-- The three masks `parseStridedSlice` requires to encode to zero. -/
def unsupportedMaskKeys : List (List Char) :=
  [newAxisMaskKey, shrinkAxisMaskKey, ellipsisMaskKey]

/-- All five mask attributes of the stage. -/
def allMaskKeys : List (List Char) :=
  [beginMaskKey, endMaskKey, newAxisMaskKey, shrinkAxisMaskKey, ellipsisMaskKey]

/-- Source layer description: a name, a type tag and a map from parameter
name to string value (all attributes stored as text). -/
structure CNNLayer where
  name : List Char
  ltype : List Char
  params : List (List Char × List Char)
  deriving DecidableEq

/-- Modelled from the spec: `CNNLayer::GetParamAsString(name, default)` (the
layer class is outside the translated file) returns the attribute's string
value when present and the supplied default when the attribute is absent. -/
def CNNLayer.GetParamAsString (layer : CNNLayer) (key dflt : List Char) : List Char :=
  match layer.params.lookup key with
  | some v => v
  | none => dflt

/-- Tensor descriptor: element type and dimension sizes. -/
structure DataDesc where
  dtype : DataType
  dims : List Nat
  deriving DecidableEq

/-- Modelled from the spec: `DataDesc::totalDimSize` (outside the translated
file) is the total element count, the product of the dimension sizes. -/
def DataDesc.totalDimSize (d : DataDesc) : Nat :=
  d.dims.foldl (fun a b => a * b) 1

/-- A tensor ("data node") of the IR: an identity for its underlying buffer
reference, a descriptor, and optionally compile-time constant content
(`content()->get<int32_t>()` yields the element list, or `none` for a null
pointer). -/
structure DataNode where
  id : Nat
  desc : DataDesc
  content : Option (List Int)
  deriving DecidableEq

/-- The StridedSlice stage node: the originating layer plus the wired input
and output tensor lists (shared references, not copies). -/
structure StridedSliceStage where
  origLayer : CNNLayer
  inputs : List DataNode
  outputs : List DataNode
  deriving DecidableEq

/-- The IR model container, as far as this file needs it: a counter for
fresh data-node identities and the registered stages. -/
structure VpuModel where
  nextDataId : Nat
  stages : List StridedSliceStage
  deriving DecidableEq

/-- Modelled from the spec: `Model::addFakeData` (outside the translated
file) creates a placeholder tensor carrying no dimensions and no content.
Its element type is the container's default and is never inspected here. -/
def VpuModel.addFakeData (m : VpuModel) : VpuModel × DataNode :=
  ({ m with nextDataId := m.nextDataId + 1 },
   { id := m.nextDataId, desc := { dtype := DataType.fp16, dims := [] }, content := none })

/-- Registration of a new stage into the model (`model->addNewStage`). -/
def VpuModel.addNewStage (m : VpuModel) (s : StridedSliceStage) : VpuModel :=
  { m with stages := m.stages ++ [s] }

/-- The stride-positivity loop of `parseStridedSlice`: checks indices
`i, i + 1, …` (with `k` iterations left) of the strides content, failing at
the first index holding a non-positive value. -/
def checkStridesFrom (ptr : List Int) : Nat → Nat → Except VpuError Unit
  | _, 0 => .ok ()
  | i, k + 1 =>
    if 0 < ptr.getD i 0 then checkStridesFrom ptr (i + 1) k
    else .error (.negativeStride i)

/-- The `for (int i = 0; i < strides->desc().totalDimSize(); i++)` loop. -/
def checkStridesPositive (ptr : List Int) (n : Nat) : Except VpuError Unit :=
  checkStridesFrom ptr 0 n

/-- `FrontEnd::parseStridedSlice`: checks input/output arity, requires the
three unsupported mask attributes to encode to zero, extends a 3-input list
with a fake data node or validates the strides content of a 4-input list,
and registers the new stage.  Returns the updated model together with the
constructed stage. -/
def FrontEnd.parseStridedSlice (model : VpuModel) (layer : CNNLayer)
    (inputs outputs : List DataNode) :
    Except VpuError (VpuModel × StridedSliceStage) :=
  if inputs.length = 3 ∨ inputs.length = 4 then
    if outputs.length = 1 then
      match maskStrToInt (layer.GetParamAsString newAxisMaskKey []) with
      | .error e => .error e
      | .ok nv =>
        if nv = 0 then
          match maskStrToInt (layer.GetParamAsString shrinkAxisMaskKey []) with
          | .error e => .error e
          | .ok sv =>
            if sv = 0 then
              match maskStrToInt (layer.GetParamAsString ellipsisMaskKey []) with
              | .error e => .error e
              | .ok ev =>
                if ev = 0 then
                  if inputs.length = 3 then
                    let fm := model.addFakeData
                    let st : StridedSliceStage :=
                      { origLayer := layer, inputs := inputs ++ [fm.2], outputs := outputs }
                    .ok (fm.1.addNewStage st, st)
                  else
                    match inputs.get? 3 with
                    | none => .error .internalError
                    | some strides =>
                      match strides.content with
                      | none => .error .stridesNull
                      | some ptr =>
                        match checkStridesPositive ptr strides.desc.totalDimSize with
                        | .error e => .error e
                        | .ok _ =>
                          let st : StridedSliceStage :=
                            { origLayer := layer, inputs := inputs, outputs := outputs }
                          .ok (model.addNewStage st, st)
                else .error (.unsupportedMask ellipsisMaskKey)
            else .error (.unsupportedMask shrinkAxisMaskKey)
        else .error (.unsupportedMask newAxisMaskKey)
    else .error (.wrongNumOutputs outputs.length)
  else .error (.wrongNumInputs inputs.length)

/-- Modelled from the spec: `assertInputsOutputsTypes` (VPU common stage
utilities, outside the translated file) checks that each data node's element
type belongs to the corresponding expected set, position by position. -/
def checkTypesAgainst : List DataNode → List (List DataType) → Bool
  | [], [] => true
  | d :: ds, e :: es => decide (d.desc.dtype ∈ e) && checkTypesAgainst ds es
  | _, _ => false

/-- Modelled from the spec: the throwing wrapper around the positional type
check, for the inputs and the outputs. -/
def assertInputsOutputsTypes (ins outs : List DataNode)
    (expIns expOuts : List (List DataType)) : Except VpuError Unit :=
  if checkTypesAgainst ins expIns && checkTypesAgainst outs expOuts then .ok ()
  else .error .typesCheckFailed

/-- `StridedSliceStage::initialCheckImpl`: 3 or 4 inputs, exactly 1 output,
input #0's type everywhere a data tensor is expected and `S32` for the
begin/end/strides vectors. -/
def StridedSliceStage.initialCheckImpl (s : StridedSliceStage) : Except VpuError Unit :=
  if s.inputs.length = 3 ∨ s.inputs.length = 4 then
    if s.outputs.length = 1 then
      match s.inputs with
      | [] => .error .internalError
      | i0 :: _ =>
        assertInputsOutputsTypes s.inputs s.outputs
          (if s.inputs.length = 3 then
            [[i0.desc.dtype], [DataType.s32], [DataType.s32]]
           else
            [[i0.desc.dtype], [DataType.s32], [DataType.s32], [DataType.s32]])
          [[i0.desc.dtype]]
    else .error (.wrongNumOutputs s.outputs.length)
  else .error (.wrongNumInputs s.inputs.length)

/-- The validator as a state transformer: the C++ method is `const`, so it
returns its verdict and leaves the stage untouched. -/
def StridedSliceStage.initialCheckRun (s : StridedSliceStage) :
    Except VpuError Unit × StridedSliceStage :=
  (s.initialCheckImpl, s)

/-- `StridedSliceStage::serializeParamsImpl`: reads `begin_mask` and
`end_mask` from the originating layer (defaulting to the empty string),
encodes each with `maskStrToInt` and appends the two 32-bit values in that
order.  The appended parameter words are returned as a list. -/
def StridedSliceStage.serializeParamsImpl (s : StridedSliceStage) :
    Except VpuError (List Nat) :=
  match maskStrToInt (s.origLayer.GetParamAsString beginMaskKey []) with
  | .error e => .error e
  | .ok b =>
    match maskStrToInt (s.origLayer.GetParamAsString endMaskKey []) with
    | .error e => .error e
    | .ok e2 => .ok [b, e2]

/-- `StridedSliceStage::serializeDataImpl`: appends the buffer references of
inputs #0–#3 and output #0, in that order.  Accessing a missing slot (the
C++ `input(i)` precondition) yields `none`. -/
def StridedSliceStage.serializeDataImpl (s : StridedSliceStage) : Option (List Nat) :=
  match s.inputs.get? 0, s.inputs.get? 1, s.inputs.get? 2, s.inputs.get? 3,
      s.outputs.get? 0 with
  | some i0, some i1, some i2, some i3, some o0 =>
    some [i0.id, i1.id, i2.id, i3.id, o0.id]
  | _, _, _, _, _ => none

/-- `StridedSliceStage::cloneImpl`: `std::make_shared<StridedSliceStage>(*this)`,
a copy construction — an independent stage object with identical fields and
the same shared tensor references.  No validation is performed. -/
def StridedSliceStage.cloneImpl (s : StridedSliceStage) : StridedSliceStage := s

/-- The structural conditions `initialCheckImpl` enforces, stated directly:
3 or 4 inputs, 1 output, inputs #1 onward of type `S32`, and input #0's
element type equal to output #0's. -/
def stridedSliceStructOk (s : StridedSliceStage) : Prop :=
  (s.inputs.length = 3 ∨ s.inputs.length = 4) ∧
  s.outputs.length = 1 ∧
  (∀ x ∈ s.inputs.tail, x.desc.dtype = DataType.s32) ∧
  (s.inputs.map fun d => d.desc.dtype).head? = (s.outputs.map fun d => d.desc.dtype).head?

instance (s : StridedSliceStage) : Decidable (stridedSliceStructOk s) := by
  unfold stridedSliceStructOk
  infer_instance

/-- A sample FP16 data tensor, used as input #0 of concrete examples. -/
def in0Fp16 : DataNode :=
  { id := 10, desc := { dtype := DataType.fp16, dims := [4] }, content := none }

/-- A sample `S32` begin vector. -/
def beginS32 : DataNode :=
  { id := 11, desc := { dtype := DataType.s32, dims := [1] }, content := some [0] }

/-- A sample `S32` end vector. -/
def endS32 : DataNode :=
  { id := 12, desc := { dtype := DataType.s32, dims := [1] }, content := some [2] }

/-- A sample `S32` strides tensor whose content `[1]` is all positive. -/
def stridesS32 : DataNode :=
  { id := 13, desc := { dtype := DataType.s32, dims := [1] }, content := some [1] }

/-- A sample FP16 output tensor. -/
def outFp16 : DataNode :=
  { id := 15, desc := { dtype := DataType.fp16, dims := [2] }, content := none }

/-- The empty model. -/
def model0 : VpuModel := { nextDataId := 0, stages := [] }

/-- A layer carrying no attributes at all. -/
def layerEmpty : CNNLayer := { name := [], ltype := [], params := [] }

/-- A layer whose only attribute is `shrink_axis_mask = "1"`. -/
def layerShrinkOne : CNNLayer :=
  { name := [], ltype := [], params := [(shrinkAxisMaskKey, ['1'])] }

/-- A layer whose only attribute is `begin_mask = "x"` — an attribute value
the frontend never validates. -/
def layerBeginBad : CNNLayer :=
  { name := [], ltype := [], params := [(beginMaskKey, ['x'])] }

/-- The canonical well-typed 4-input list. -/
def ins4 : List DataNode := [in0Fp16, beginS32, endS32, stridesS32]

/-- The canonical well-typed 3-input list. -/
def ins3 : List DataNode := [in0Fp16, beginS32, endS32]

/-- The canonical 1-output list. -/
def outs1 : List DataNode := [outFp16]

end VpuSS

namespace VpuSS

/-! ### Helper lemmas for the mask codec -/

theorem testBit_bit_zero (b e : Nat) (hb : b < 2) :
    (b + 2 * e).testBit 0 = decide (b = 1) := by
  rw [Nat.testBit_zero]
  simp only [decide_eq_decide]
  omega

theorem testBit_bit_step (b e i : Nat) (hb : b < 2) :
    (b + 2 * e).testBit (i + 1) = e.testBit i := by
  rw [Nat.testBit_add_one]
  congr 1
  omega

theorem encBits_testBit (l : List Char) :
    ∀ i, (encBits l).testBit i = decide (l.get? i = some '1') := by
  induction l with
  | nil => intro i; simp [encBits]
  | cons c rest ih =>
    intro i
    cases i with
    | zero =>
      rw [encBits, testBit_bit_zero _ _ (by split <;> omega)]
      by_cases hc : c = '1' <;> simp [hc]
    | succ i =>
      rw [encBits, testBit_bit_step _ _ _ (by split <;> omega)]
      simpa using ih i

theorem or_mod_left (a b n : Nat) : (a % 2 ^ n ||| b) % 2 ^ n = (a ||| b) % 2 ^ n := by
  apply Nat.eq_of_testBit_eq
  intro j
  simp only [Nat.testBit_mod_two_pow, Nat.testBit_or]
  cases hj : decide (j < n) <;> simp

theorem or_mod_right (a b n : Nat) : (a ||| b % 2 ^ n) % 2 ^ n = (a ||| b) % 2 ^ n := by
  rw [Nat.lor_comm, or_mod_left, Nat.lor_comm]

theorem or_mod_inner (a b c n : Nat) :
    (a ||| (b % 2 ^ n ||| c)) % 2 ^ n = (a ||| (b ||| c)) % 2 ^ n := by
  apply Nat.eq_of_testBit_eq
  intro j
  simp only [Nat.testBit_mod_two_pow, Nat.testBit_or]
  cases hj : decide (j < n) <;> simp

theorem add_shift_split (e idx : Nat) :
    (1 + 2 * e) <<< idx = (1 <<< idx) ||| (e <<< (idx + 1)) := by
  apply Nat.eq_of_testBit_eq
  intro j
  simp only [Nat.testBit_shiftLeft, Nat.testBit_or, Nat.one_shiftLeft, Nat.testBit_two_pow]
  by_cases hidx : idx ≤ j
  · rcases Nat.eq_or_lt_of_le hidx with heq | hlt
    · have h0 : j - idx = 0 := by omega
      have h1 : ¬(idx + 1 ≤ j) := by omega
      rw [h0, show (1 + 2 * e).testBit 0 = decide (1 = 1) from
        testBit_bit_zero 1 e (by omega)]
      simp [heq, h1]
    · have h0 : j - idx = (j - idx - 1) + 1 := by omega
      have h2 : j - (idx + 1) = j - idx - 1 := by omega
      rw [h0, testBit_bit_step 1 e _ (by omega), ← h2]
      have h3 : idx ≠ j := by omega
      have h4 : idx + 1 ≤ j := by omega
      simp [h3, h4, hidx]
  · have h1 : ¬(idx + 1 ≤ j) := by omega
    have h3 : idx ≠ j := by omega
    simp [hidx, h1, h3, Nat.not_le.mp hidx]

theorem shift_double (e idx : Nat) : (2 * e) <<< idx = e <<< (idx + 1) := by
  simp only [Nat.shiftLeft_eq, pow_succ]
  ring

theorem maskStrToIntGo_ok (cs : List Char) (hok : ∀ c ∈ cs, maskCharOk c) :
    ∀ result idx, result < 2 ^ 32 →
      maskStrToIntGo cs result idx =
        .ok ((result ||| (encBits (cs.filter fun c => c ≠ ',') <<< idx)) % 2 ^ 32) := by
  induction cs with
  | nil =>
    intro result idx hr
    simp [maskStrToIntGo, encBits, Nat.zero_shiftLeft]
    omega
  | cons c rest ih =>
    intro result idx hr
    have hcok : maskCharOk c := hok c (List.mem_cons_self c rest)
    have hrest : ∀ x ∈ rest, maskCharOk x := fun x hx => hok x (List.mem_cons_of_mem c hx)
    rcases hcok with hc | hc | hc
    · subst hc
      rw [show maskStrToIntGo (',' :: rest) result idx = maskStrToIntGo rest result idx
          from by simp [maskStrToIntGo]]
      rw [ih hrest result idx hr]
      simp
    · subst hc
      rw [show maskStrToIntGo ('0' :: rest) result idx = maskStrToIntGo rest result (idx + 1)
          from by simp [maskStrToIntGo]]
      rw [ih hrest result (idx + 1) hr]
      have hfil : ('0' :: rest).filter (fun c => c ≠ ',') =
          '0' :: rest.filter (fun c => c ≠ ',') := by simp
      rw [hfil, show encBits ('0' :: rest.filter fun c => c ≠ ',') =
          2 * encBits (rest.filter fun c => c ≠ ',') from by simp [encBits]]
      rw [shift_double]
    · subst hc
      rw [show maskStrToIntGo ('1' :: rest) result idx =
          maskStrToIntGo rest ((result ||| ((1 <<< idx) % 2 ^ 32)) % 2 ^ 32) (idx + 1)
          from by simp [maskStrToIntGo]]
      rw [ih hrest _ (idx + 1) (Nat.mod_lt _ (by positivity))]
      have hfil : ('1' :: rest).filter (fun c => c ≠ ',') =
          '1' :: rest.filter (fun c => c ≠ ',') := by simp
      rw [hfil, show encBits ('1' :: rest.filter fun c => c ≠ ',') =
          1 + 2 * encBits (rest.filter fun c => c ≠ ',') from by simp [encBits]]
      rw [add_shift_split, or_mod_left, Nat.lor_assoc, or_mod_inner]

theorem maskStrToIntGo_error (cs : List Char) (hbad : ∃ c ∈ cs, ¬maskCharOk c) :
    ∀ result idx, ∃ c, ¬maskCharOk c ∧
      maskStrToIntGo cs result idx = .error (.maskFormat c) := by
  induction cs with
  | nil => rcases hbad with ⟨c, hc, _⟩; exact absurd hc (List.not_mem_nil c)
  | cons c rest ih =>
    intro result idx
    by_cases hcok : maskCharOk c
    · have hbad' : ∃ x ∈ rest, ¬maskCharOk x := by
        rcases hbad with ⟨x, hx, hxbad⟩
        rcases List.mem_cons.mp hx with rfl | hx'
        · exact absurd hcok hxbad
        · exact ⟨x, hx', hxbad⟩
      rcases hcok with hc | hc | hc <;> subst hc
      · simpa [maskStrToIntGo] using ih hbad' result idx
      · simpa [maskStrToIntGo] using ih hbad' result (idx + 1)
      · simpa [maskStrToIntGo] using
          ih hbad' ((result ||| ((1 <<< idx) % 2 ^ 32)) % 2 ^ 32) (idx + 1)
    · refine ⟨c, hcok, ?_⟩
      have h1 : ¬(c = ',') := fun h => hcok (Or.inl h)
      have h2 : ¬(c = '0') := fun h => hcok (Or.inr (Or.inl h))
      have h3 : ¬(c = '1') := fun h => hcok (Or.inr (Or.inr h))
      simp [maskStrToIntGo, h1, h2, h3]

end VpuSS

namespace VpuSS

/-- C1: `encodeMask` (`maskStrToInt`) is a total characterization: on every
string made only of `'0'`, `'1'` and `','` it succeeds with a `uint32` whose
bit `i` (for the 32 bits a `uint32` has) is set iff the `i`-th non-separator
character is `'1'`; the empty string yields 0, `"1,0,1"` yields 5,
`"0,0,1,0"` yields 4; and on any string containing another character it
raises the format error. -/
theorem C1_maskStrToInt_total_characterization (mask : List Char) :
    ((∀ c ∈ mask, maskCharOk c) →
      ∃ r, maskStrToInt mask = .ok r ∧ r < 2 ^ 32 ∧
        ∀ i, i < 32 →
          (r.testBit i = true ↔ (mask.filter fun c => c ≠ ',').get? i = some '1'))
    ∧ ((∃ c ∈ mask, ¬maskCharOk c) →
      ∃ c, ¬maskCharOk c ∧ maskStrToInt mask = .error (.maskFormat c))
    ∧ maskStrToInt [] = .ok 0
    ∧ maskStrToInt ['1', ',', '0', ',', '1'] = .ok 5
    ∧ maskStrToInt ['0', ',', '0', ',', '1', ',', '0'] = .ok 4 := by
  refine ⟨?_, ?_, rfl, rfl, rfl⟩
  · intro hok
    have h := maskStrToIntGo_ok mask hok 0 0 (by positivity)
    refine ⟨_, h, Nat.mod_lt _ (by positivity), ?_⟩
    intro i hi
    have hbit : ((0 ||| encBits (mask.filter fun c => c ≠ ',') <<< 0) % 2 ^ 32).testBit i
        = decide ((mask.filter fun c => c ≠ ',').get? i = some '1') := by
      rw [Nat.zero_or, Nat.shiftLeft_zero, Nat.testBit_mod_two_pow, encBits_testBit]
      simp [hi]
    rw [hbit, decide_eq_true_eq]
  · intro hbad
    rcases maskStrToIntGo_error mask hbad 0 0 with ⟨c, hc, hrun⟩
    exact ⟨c, hc, hrun⟩

/-- Witness for C1 at the concrete input `"1,0,1"`. -/
theorem C1_maskStrToInt_total_characterization_witness :
    ∃ r, maskStrToInt ['1', ',', '0', ',', '1'] = .ok r ∧ r < 2 ^ 32 ∧
      ∀ i, i < 32 →
        (r.testBit i = true ↔
          ((['1', ',', '0', ',', '1']).filter fun c => c ≠ ',').get? i = some '1') :=
  (C1_maskStrToInt_total_characterization ['1', ',', '0', ',', '1']).1 (by decide)

end VpuSS

namespace VpuSS

/-! ### Helper lemmas about lists of known length -/

theorem list_len_one {α : Type} {l : List α} (h : l.length = 1) : ∃ a, l = [a] := by
  rcases l with _ | ⟨a, l⟩
  · simp at h
  · rcases l with _ | ⟨b, l⟩
    · exact ⟨a, rfl⟩
    · simp at h

theorem list_len_three {α : Type} {l : List α} (h : l.length = 3) :
    ∃ a b c, l = [a, b, c] := by
  rcases l with _ | ⟨a, l⟩; · simp at h
  rcases l with _ | ⟨b, l⟩; · simp at h
  rcases l with _ | ⟨c, l⟩; · simp at h
  rcases l with _ | ⟨d, l⟩
  · exact ⟨a, b, c, rfl⟩
  · simp at h

theorem list_len_four {α : Type} {l : List α} (h : l.length = 4) :
    ∃ a b c d, l = [a, b, c, d] := by
  rcases l with _ | ⟨a, l⟩; · simp at h
  rcases l with _ | ⟨b, l⟩; · simp at h
  rcases l with _ | ⟨c, l⟩; · simp at h
  rcases l with _ | ⟨d, l⟩; · simp at h
  rcases l with _ | ⟨e, l⟩
  · exact ⟨a, b, c, d, rfl⟩
  · simp at h

/-! ### Unfolding and inversion lemmas for the frontend translation -/

theorem parse_checks_passed {model : VpuModel} {layer : CNNLayer}
    {inputs outputs : List DataNode}
    (h1 : inputs.length = 3 ∨ inputs.length = 4) (h2 : outputs.length = 1)
    (hn : maskStrToInt (layer.GetParamAsString newAxisMaskKey []) = .ok 0)
    (hs : maskStrToInt (layer.GetParamAsString shrinkAxisMaskKey []) = .ok 0)
    (he : maskStrToInt (layer.GetParamAsString ellipsisMaskKey []) = .ok 0) :
    FrontEnd.parseStridedSlice model layer inputs outputs =
      if inputs.length = 3 then
        .ok ((model.addFakeData).1.addNewStage
              ⟨layer, inputs ++ [(model.addFakeData).2], outputs⟩,
             ⟨layer, inputs ++ [(model.addFakeData).2], outputs⟩)
      else
        match inputs.get? 3 with
        | none => .error .internalError
        | some strides =>
          match strides.content with
          | none => .error .stridesNull
          | some ptr =>
            match checkStridesPositive ptr strides.desc.totalDimSize with
            | .error e => .error e
            | .ok _ =>
              .ok (model.addNewStage ⟨layer, inputs, outputs⟩,
                   ⟨layer, inputs, outputs⟩) := by
  unfold FrontEnd.parseStridedSlice
  rw [if_pos h1, if_pos h2, hn, hs, he]
  rfl

end VpuSS

namespace VpuSS

theorem parse_ok_inv {model : VpuModel} {layer : CNNLayer}
    {inputs outputs : List DataNode} {r : VpuModel × StridedSliceStage}
    (h : FrontEnd.parseStridedSlice model layer inputs outputs = .ok r) :
    (inputs.length = 3 ∨ inputs.length = 4) ∧ outputs.length = 1 ∧
    maskStrToInt (layer.GetParamAsString newAxisMaskKey []) = .ok 0 ∧
    maskStrToInt (layer.GetParamAsString shrinkAxisMaskKey []) = .ok 0 ∧
    maskStrToInt (layer.GetParamAsString ellipsisMaskKey []) = .ok 0 ∧
    r.2.origLayer = layer ∧ r.2.outputs = outputs ∧
    ((inputs.length = 3 ∧ r.2.inputs = inputs ++ [(model.addFakeData).2]) ∨
     (inputs.length = 4 ∧ r.2.inputs = inputs ∧
       ∃ strides ptr, inputs.get? 3 = some strides ∧ strides.content = some ptr ∧
         checkStridesPositive ptr strides.desc.totalDimSize = .ok ())) := by
  unfold FrontEnd.parseStridedSlice at h
  split at h
  · rename_i h1
    split at h
    · rename_i h2
      split at h
      · cases h
      · rename_i nv hn
        split at h
        · rename_i hnv
          subst hnv
          split at h
          · cases h
          · rename_i sv hs
            split at h
            · rename_i hsv
              subst hsv
              split at h
              · cases h
              · rename_i ev he
                split at h
                · rename_i hev
                  subst hev
                  split at h
                  · rename_i h3
                    cases h
                    exact ⟨h1, h2, hn, hs, he, rfl, rfl, Or.inl ⟨h3, rfl⟩⟩
                  · rename_i h3
                    split at h
                    · cases h
                    · rename_i strides hstr
                      split at h
                      · cases h
                      · rename_i ptr hc
                        split at h
                        · cases h
                        · rename_i u hcs
                          cases h
                          cases u
                          have h4 : inputs.length = 4 := by tauto
                          exact ⟨h1, h2, hn, hs, he, rfl, rfl,
                            Or.inr ⟨h4, rfl, strides, ptr, hstr, hc, hcs⟩⟩
                · cases h
            · cases h
        · cases h
    · cases h
  · cases h

end VpuSS

namespace VpuSS

/-! ### Lemmas about the stride-positivity loop and the codec range -/

theorem checkStridesFrom_ok (ptr : List Int) :
    ∀ k i, (∀ j, i ≤ j → j < i + k → 0 < ptr.getD j 0) →
      checkStridesFrom ptr i k = .ok () := by
  intro k
  induction k with
  | zero => intro i _; rfl
  | succ k ih =>
    intro i h
    have hi : 0 < ptr.getD i 0 := h i le_rfl (by omega)
    simp only [checkStridesFrom, if_pos hi]
    exact ih (i + 1) fun j hj1 hj2 => h j (by omega) (by omega)

theorem checkStridesFrom_err (ptr : List Int) :
    ∀ k i j, i ≤ j → j < i + k → ptr.getD j 0 ≤ 0 →
      (∀ l, i ≤ l → l < j → 0 < ptr.getD l 0) →
      checkStridesFrom ptr i k = .error (.negativeStride j) := by
  intro k
  induction k with
  | zero => intro i j h1 h2; omega
  | succ k ih =>
    intro i j h1 h2 h3 h4
    by_cases hij : j = i
    · subst hij
      have hneg : ¬(0 < ptr.getD j 0) := by omega
      simp only [checkStridesFrom, if_neg hneg]
    · have hi : 0 < ptr.getD i 0 := h4 i le_rfl (by omega)
      simp only [checkStridesFrom, if_pos hi]
      exact ih (i + 1) j (by omega) (by omega) h3 fun l hl1 hl2 => h4 l (by omega) hl2

theorem checkStridesPositive_ok (ptr : List Int) (n : Nat)
    (h : ∀ j, j < n → 0 < ptr.getD j 0) : checkStridesPositive ptr n = .ok () :=
  checkStridesFrom_ok ptr n 0 fun j _ hj2 => h j (by omega)

theorem checkStridesPositive_err (ptr : List Int) (n j : Nat)
    (h1 : j < n) (h2 : ptr.getD j 0 ≤ 0) (h3 : ∀ l, l < j → 0 < ptr.getD l 0) :
    checkStridesPositive ptr n = .error (.negativeStride j) :=
  checkStridesFrom_err ptr n 0 j (by omega) (by omega) h2 fun l _ hl2 => h3 l hl2

theorem maskStrToIntGo_lt (cs : List Char) :
    ∀ result idx v, result < 2 ^ 32 → maskStrToIntGo cs result idx = .ok v →
      v < 2 ^ 32 := by
  induction cs with
  | nil =>
    intro result idx v hr h
    cases h
    exact hr
  | cons c rest ih =>
    intro result idx v hr h
    unfold maskStrToIntGo at h
    split at h
    · exact ih result idx v hr h
    · split at h
      · exact ih _ (idx + 1) v (Nat.mod_lt _ (by positivity)) h
      · split at h
        · exact ih result (idx + 1) v hr h
        · cases h

theorem maskStrToInt_lt {mask : List Char} {v : Nat}
    (h : maskStrToInt mask = .ok v) : v < 2 ^ 32 :=
  maskStrToIntGo_lt mask 0 0 v (by positivity) h

end VpuSS

namespace VpuSS

/-! ### Per-mask rejection lemmas for the frontend -/

theorem parse_new_mask_nonzero {model : VpuModel} {layer : CNNLayer}
    {inputs outputs : List DataNode} {v : Nat}
    (h1 : inputs.length = 3 ∨ inputs.length = 4) (h2 : outputs.length = 1)
    (hv : maskStrToInt (layer.GetParamAsString newAxisMaskKey []) = .ok v)
    (hne : v ≠ 0) :
    FrontEnd.parseStridedSlice model layer inputs outputs =
      .error (.unsupportedMask newAxisMaskKey) := by
  unfold FrontEnd.parseStridedSlice
  rw [if_pos h1, if_pos h2, hv]
  exact if_neg hne

theorem parse_shrink_mask_nonzero {model : VpuModel} {layer : CNNLayer}
    {inputs outputs : List DataNode} {v : Nat}
    (h1 : inputs.length = 3 ∨ inputs.length = 4) (h2 : outputs.length = 1)
    (hn : maskStrToInt (layer.GetParamAsString newAxisMaskKey []) = .ok 0)
    (hv : maskStrToInt (layer.GetParamAsString shrinkAxisMaskKey []) = .ok v)
    (hne : v ≠ 0) :
    FrontEnd.parseStridedSlice model layer inputs outputs =
      .error (.unsupportedMask shrinkAxisMaskKey) := by
  unfold FrontEnd.parseStridedSlice
  rw [if_pos h1, if_pos h2, hn, hv]
  exact if_neg hne

theorem parse_ellipsis_mask_nonzero {model : VpuModel} {layer : CNNLayer}
    {inputs outputs : List DataNode} {v : Nat}
    (h1 : inputs.length = 3 ∨ inputs.length = 4) (h2 : outputs.length = 1)
    (hn : maskStrToInt (layer.GetParamAsString newAxisMaskKey []) = .ok 0)
    (hs : maskStrToInt (layer.GetParamAsString shrinkAxisMaskKey []) = .ok 0)
    (hv : maskStrToInt (layer.GetParamAsString ellipsisMaskKey []) = .ok v)
    (hne : v ≠ 0) :
    FrontEnd.parseStridedSlice model layer inputs outputs =
      .error (.unsupportedMask ellipsisMaskKey) := by
  unfold FrontEnd.parseStridedSlice
  rw [if_pos h1, if_pos h2, hn, hs, hv]
  exact if_neg hne

/-- C8: a source layer supplied with an input list whose length is neither 3
nor 4, or an output list whose length is not 1, is rejected with the
corresponding arity error — whatever the layer's attributes and the tensors'
contents are, since the statement quantifies over every layer and model. -/
theorem C8_parse_arity_errors (model : VpuModel) (layer : CNNLayer)
    (inputs outputs : List DataNode) :
    (inputs.length ≠ 3 → inputs.length ≠ 4 →
      FrontEnd.parseStridedSlice model layer inputs outputs =
        .error (.wrongNumInputs inputs.length))
    ∧ (inputs.length = 3 ∨ inputs.length = 4 → outputs.length ≠ 1 →
      FrontEnd.parseStridedSlice model layer inputs outputs =
        .error (.wrongNumOutputs outputs.length)) := by
  constructor
  · intro h3 h4
    have h1 : ¬(inputs.length = 3 ∨ inputs.length = 4) := by tauto
    unfold FrontEnd.parseStridedSlice
    rw [if_neg h1]
  · intro h1 h2
    unfold FrontEnd.parseStridedSlice
    rw [if_pos h1, if_neg h2]

/-- Witness for C8: a 5-input layer and a 3-input/2-output layer are both
rejected with arity errors. -/
theorem C8_parse_arity_errors_witness :
    FrontEnd.parseStridedSlice model0 layerEmpty
        [in0Fp16, beginS32, endS32, stridesS32, stridesS32] outs1 =
      .error (.wrongNumInputs 5)
    ∧ FrontEnd.parseStridedSlice model0 layerEmpty ins3 [outFp16, outFp16] =
      .error (.wrongNumOutputs 2) :=
  ⟨(C8_parse_arity_errors model0 layerEmpty
      [in0Fp16, beginS32, endS32, stridesS32, stridesS32] outs1).1
      (by decide) (by decide),
   (C8_parse_arity_errors model0 layerEmpty ins3 [outFp16, outFp16]).2
      (by decide) (by decide)⟩

/-- C3: translation never succeeds when one of `new_axis_mask`,
`shrink_axis_mask`, `ellipsis_mask` encodes to a nonzero value (first
conjunct: success forces all three to encode to 0); and whenever the arity
checks pass and the three attributes all encode successfully, a nonzero
value among them makes translation fail with an unsupported-feature error
(naming one of the three attributes). -/
theorem C3_unsupported_masks_rejected (model : VpuModel) (layer : CNNLayer)
    (inputs outputs : List DataNode) :
    (∀ r, FrontEnd.parseStridedSlice model layer inputs outputs = .ok r →
      ∀ k ∈ unsupportedMaskKeys, maskStrToInt (layer.GetParamAsString k []) = .ok 0)
    ∧ (inputs.length = 3 ∨ inputs.length = 4 → outputs.length = 1 →
      (∀ k ∈ unsupportedMaskKeys, ∃ v, maskStrToInt (layer.GetParamAsString k []) = .ok v) →
      (∃ k ∈ unsupportedMaskKeys, ∃ v,
        maskStrToInt (layer.GetParamAsString k []) = .ok v ∧ v ≠ 0) →
      ∃ k ∈ unsupportedMaskKeys,
        FrontEnd.parseStridedSlice model layer inputs outputs =
          .error (.unsupportedMask k)) := by
  constructor
  · intro r hr k hk
    obtain ⟨-, -, hn, hs, he, -⟩ := parse_ok_inv hr
    simp only [unsupportedMaskKeys, List.mem_cons, List.mem_singleton,
      List.not_mem_nil, or_false] at hk
    rcases hk with rfl | rfl | rfl
    · exact hn
    · exact hs
    · exact he
  · intro h1 h2 hall hne
    obtain ⟨vn, hvn⟩ := hall newAxisMaskKey (by simp [unsupportedMaskKeys])
    obtain ⟨vs, hvs⟩ := hall shrinkAxisMaskKey (by simp [unsupportedMaskKeys])
    obtain ⟨ve, hve⟩ := hall ellipsisMaskKey (by simp [unsupportedMaskKeys])
    by_cases hn0 : vn = 0
    · subst hn0
      by_cases hs0 : vs = 0
      · subst hs0
        by_cases he0 : ve = 0
        · exfalso
          obtain ⟨k, hk, v, hv, hvne⟩ := hne
          simp only [unsupportedMaskKeys, List.mem_cons, List.mem_singleton,
            List.not_mem_nil, or_false] at hk
          rcases hk with rfl | rfl | rfl
          · rw [hvn] at hv; exact hvne (Except.ok.inj hv).symm
          · rw [hvs] at hv; exact hvne (Except.ok.inj hv).symm
          · subst he0; rw [hve] at hv; exact hvne (Except.ok.inj hv).symm
        · exact ⟨ellipsisMaskKey, by simp [unsupportedMaskKeys],
            parse_ellipsis_mask_nonzero h1 h2 hvn hvs hve he0⟩
      · exact ⟨shrinkAxisMaskKey, by simp [unsupportedMaskKeys],
          parse_shrink_mask_nonzero h1 h2 hvn hvs hs0⟩
    · exact ⟨newAxisMaskKey, by simp [unsupportedMaskKeys],
        parse_new_mask_nonzero h1 h2 hvn hn0⟩

/-- Witness for C3: a layer whose `shrink_axis_mask` is `"1"` is rejected
with the unsupported-feature error. -/
theorem C3_unsupported_masks_rejected_witness :
    ∃ k ∈ unsupportedMaskKeys,
      FrontEnd.parseStridedSlice model0 layerShrinkOne ins4 outs1 =
        .error (.unsupportedMask k) :=
  (C3_unsupported_masks_rejected model0 layerShrinkOne ins4 outs1).2
    (by decide) (by decide)
    (by intro k hk; fin_cases hk <;> exact ⟨_, rfl⟩)
    ⟨shrinkAxisMaskKey, by decide, 1, by decide, by decide⟩

end VpuSS

namespace VpuSS

/-- C4 (amended): for a translation given exactly 4 inputs, one output, and
the three unsupported masks encoding to 0, the frontend fails when the
strides content pointer is unavailable, fails at the first non-positive
element of the strides content, and succeeds — with input #3 of the
constructed stage equal to the given strides tensor unchanged — when the
content is available and all elements are strictly positive. -/
theorem C4_strides_validation (model : VpuModel) (layer : CNNLayer)
    (inputs outputs : List DataNode) (strides : DataNode)
    (h4 : inputs.length = 4) (h2 : outputs.length = 1)
    (hn : maskStrToInt (layer.GetParamAsString newAxisMaskKey []) = .ok 0)
    (hs : maskStrToInt (layer.GetParamAsString shrinkAxisMaskKey []) = .ok 0)
    (he : maskStrToInt (layer.GetParamAsString ellipsisMaskKey []) = .ok 0)
    (hstr : inputs.get? 3 = some strides) :
    (strides.content = none →
      FrontEnd.parseStridedSlice model layer inputs outputs = .error .stridesNull)
    ∧ (∀ ptr, strides.content = some ptr →
        ((∃ j, j < strides.desc.totalDimSize ∧ ptr.getD j 0 ≤ 0) →
          ∃ j, j < strides.desc.totalDimSize ∧ ptr.getD j 0 ≤ 0 ∧
            (∀ l, l < j → 0 < ptr.getD l 0) ∧
            FrontEnd.parseStridedSlice model layer inputs outputs =
              .error (.negativeStride j))
        ∧ ((∀ j, j < strides.desc.totalDimSize → 0 < ptr.getD j 0) →
            FrontEnd.parseStridedSlice model layer inputs outputs =
              .ok (model.addNewStage ⟨layer, inputs, outputs⟩,
                   ⟨layer, inputs, outputs⟩)
            ∧ (⟨layer, inputs, outputs⟩ : StridedSliceStage).inputs.get? 3 =
                some strides)) := by
  have hne3 : ¬inputs.length = 3 := by omega
  refine ⟨?_, ?_⟩
  · intro hcnone
    rw [parse_checks_passed (Or.inr h4) h2 hn hs he]
    simp only [if_neg hne3, hstr, hcnone]
  · intro ptr hc
    constructor
    · intro hex
      obtain ⟨hj0n, hj0le⟩ := Nat.find_spec hex
      have hmin : ∀ l, l < Nat.find hex → 0 < ptr.getD l 0 := by
        intro l hl
        have hnot := Nat.find_min hex hl
        push_neg at hnot
        have hln : l < strides.desc.totalDimSize := by omega
        have := hnot hln
        omega
      refine ⟨Nat.find hex, hj0n, hj0le, hmin, ?_⟩
      rw [parse_checks_passed (Or.inr h4) h2 hn hs he]
      simp only [if_neg hne3, hstr, hc,
        checkStridesPositive_err ptr strides.desc.totalDimSize (Nat.find hex)
          hj0n hj0le hmin]
    · intro hpos
      refine ⟨?_, hstr⟩
      rw [parse_checks_passed (Or.inr h4) h2 hn hs he]
      simp only [if_neg hne3, hstr, hc,
        checkStridesPositive_ok ptr strides.desc.totalDimSize hpos]

/-- Counterexample to C4 as stated: a translation with exactly 4 inputs
whose strides content is available and all positive still fails, because its
`shrink_axis_mask` encodes to 1 — success needs the mask hypotheses. -/
theorem C4_counterexample :
    ins4.length = 4 ∧ outs1.length = 1 ∧
    stridesS32.content = some [1] ∧
    (∀ i, i < stridesS32.desc.totalDimSize → 0 < ([1] : List Int).getD i 0) ∧
    FrontEnd.parseStridedSlice model0 layerShrinkOne ins4 outs1 =
      .error (.unsupportedMask shrinkAxisMaskKey) := by
  exact ⟨rfl, rfl, rfl, by decide, by decide⟩

/-- Witness for C4 at a concrete all-positive 4-input translation. -/
theorem C4_strides_validation_witness :
    FrontEnd.parseStridedSlice model0 layerEmpty ins4 outs1 =
      .ok (model0.addNewStage ⟨layerEmpty, ins4, outs1⟩, ⟨layerEmpty, ins4, outs1⟩)
    ∧ (⟨layerEmpty, ins4, outs1⟩ : StridedSliceStage).inputs.get? 3 =
        some stridesS32 :=
  ((C4_strides_validation model0 layerEmpty ins4 outs1 stridesS32
      (by decide) (by decide) (by decide) (by decide) (by decide) (by decide)).2
    [1] (by decide)).2 (by decide)

/-- C5 (amended): a translation with exactly 3 inputs, one output, and the
three unsupported masks encoding to 0 succeeds, and the constructed stage
has exactly 4 inputs with input #3 a synthesized placeholder carrying no
dimensions and no content; moreover every stage the frontend constructs has
4 inputs. -/
theorem C5_three_inputs_placeholder (model : VpuModel) (layer : CNNLayer)
    (inputs outputs : List DataNode) :
    (inputs.length = 3 → outputs.length = 1 →
      maskStrToInt (layer.GetParamAsString newAxisMaskKey []) = .ok 0 →
      maskStrToInt (layer.GetParamAsString shrinkAxisMaskKey []) = .ok 0 →
      maskStrToInt (layer.GetParamAsString ellipsisMaskKey []) = .ok 0 →
      ∃ m2 st, FrontEnd.parseStridedSlice model layer inputs outputs = .ok (m2, st) ∧
        st.inputs.length = 4 ∧
        ∃ ph, st.inputs.get? 3 = some ph ∧ ph.desc.dims = [] ∧ ph.content = none)
    ∧ (∀ r, FrontEnd.parseStridedSlice model layer inputs outputs = .ok r →
        r.2.inputs.length = 4) := by
  constructor
  · intro h3 h2 hn hs he
    obtain ⟨a, b, c, rfl⟩ := list_len_three h3
    refine ⟨(model.addFakeData).1.addNewStage
        ⟨layer, [a, b, c] ++ [(model.addFakeData).2], outputs⟩,
      ⟨layer, [a, b, c] ++ [(model.addFakeData).2], outputs⟩, ?_, rfl,
      (model.addFakeData).2, rfl, rfl, rfl⟩
    rw [parse_checks_passed (Or.inl h3) h2 hn hs he, if_pos h3]
  · intro r hr
    obtain ⟨-, -, -, -, -, -, -, hcase⟩ := parse_ok_inv hr
    rcases hcase with ⟨h3, hin⟩ | ⟨h4, hin, -⟩
    · rw [hin]
      simp [h3]
    · rw [hin]
      exact h4

/-- Counterexample to C5 as stated: exactly 3 inputs and all three
unsupported masks encoding to 0 do not suffice — with an empty output list
the translation fails with an arity error instead of succeeding. -/
theorem C5_counterexample :
    ins3.length = 3 ∧
    (∀ k ∈ unsupportedMaskKeys,
      maskStrToInt (layerEmpty.GetParamAsString k []) = .ok 0) ∧
    FrontEnd.parseStridedSlice model0 layerEmpty ins3 [] =
      .error (.wrongNumOutputs 0) :=
  ⟨rfl, by decide, by decide⟩

/-- Witness for C5 at a concrete 3-input translation. -/
theorem C5_three_inputs_placeholder_witness :
    ∃ m2 st, FrontEnd.parseStridedSlice model0 layerEmpty ins3 outs1 = .ok (m2, st) ∧
      st.inputs.length = 4 ∧
      ∃ ph, st.inputs.get? 3 = some ph ∧ ph.desc.dims = [] ∧ ph.content = none :=
  (C5_three_inputs_placeholder model0 layerEmpty ins3 outs1).1
    (by decide) (by decide) (by decide) (by decide) (by decide)

end VpuSS

namespace VpuSS

theorem assertIOT_ok_iff (ins outs : List DataNode)
    (expIns expOuts : List (List DataType)) :
    assertInputsOutputsTypes ins outs expIns expOuts = .ok () ↔
      (checkTypesAgainst ins expIns && checkTypesAgainst outs expOuts) = true := by
  unfold assertInputsOutputsTypes
  split <;> simp_all

/-- C7: the structural validator succeeds exactly on stages with 3 or 4
inputs, 1 output, input #0's element type equal to output #0's, and `S32`
element types on inputs #1 onward; being a `const` method it is modelled as
a pure function, so it leaves the stage unchanged and repeated runs return
the same verdict. -/
theorem C7_initialCheck_characterization (s : StridedSliceStage) :
    (s.initialCheckImpl = .ok () ↔ stridedSliceStructOk s)
    ∧ s.initialCheckRun.2 = s
    ∧ (s.initialCheckRun.2).initialCheckRun = s.initialCheckRun := by
  refine ⟨?_, rfl, rfl⟩
  unfold StridedSliceStage.initialCheckImpl stridedSliceStructOk
  by_cases h1 : s.inputs.length = 3 ∨ s.inputs.length = 4
  · rw [if_pos h1]
    by_cases h2 : s.outputs.length = 1
    · rw [if_pos h2]
      obtain ⟨o, ho⟩ := list_len_one h2
      rcases h1 with h3 | h3
      · obtain ⟨a, b, c, hin⟩ := list_len_three h3
        rw [hin, ho]
        rw [assertIOT_ok_iff]
        simp [checkTypesAgainst]
        aesop
      · obtain ⟨a, b, c, d, hin⟩ := list_len_four h3
        rw [hin, ho]
        rw [assertIOT_ok_iff]
        simp [checkTypesAgainst]
        aesop
    · rw [if_neg h2]
      simp [h2]
  · rw [if_neg h1]
    simp [h1]

/-- Witness for C7: a concrete well-formed stage validates. -/
theorem C7_initialCheck_characterization_witness :
    stridedSliceStructOk ⟨layerEmpty, ins4, outs1⟩
    ∧ (⟨layerEmpty, ins4, outs1⟩ : StridedSliceStage).initialCheckImpl = .ok () :=
  ⟨by decide,
   (C7_initialCheck_characterization ⟨layerEmpty, ins4, outs1⟩).1.mpr (by decide)⟩

end VpuSS

namespace VpuSS

/-- C2 (amended): the begin/end masks are not captured at construction time —
`serializeParamsImpl` reads them from the originating layer at serialization
time and encodes them then, so it can fail on a malformed attribute even
after translation and validation succeeded.  For every stage produced by a
successful translation that also passed validation, serialization succeeds
provided the layer's `begin_mask` and `end_mask` encode successfully (in
particular whenever they consist only of `'0'`, `'1'`, `','`), and the data
serialization succeeds unconditionally. -/
theorem C2_serialization_after_parse_and_check (model : VpuModel)
    (layer : CNNLayer) (inputs outputs : List DataNode) (m2 : VpuModel)
    (st : StridedSliceStage) (b e : Nat)
    (hp : FrontEnd.parseStridedSlice model layer inputs outputs = .ok (m2, st))
    (hv : st.initialCheckImpl = .ok ())
    (hb : maskStrToInt (layer.GetParamAsString beginMaskKey []) = .ok b)
    (hend : maskStrToInt (layer.GetParamAsString endMaskKey []) = .ok e) :
    st.serializeParamsImpl = .ok [b, e] ∧
    ∃ refs, st.serializeDataImpl = some refs := by
  obtain ⟨-, h2, -, -, -, hol, hout, hcase⟩ := parse_ok_inv hp
  constructor
  · unfold StridedSliceStage.serializeParamsImpl
    rw [hol, hb, hend]
  · have hlen4 : st.inputs.length = 4 := by
      rcases hcase with ⟨h3, hin⟩ | ⟨h4, hin, -⟩
      · rw [hin]
        simp [h3]
      · rw [hin]
        exact h4
    obtain ⟨i0, i1, i2, i3, hin4⟩ := list_len_four hlen4
    have hout1 : st.outputs.length = 1 := by rw [hout]; exact h2
    obtain ⟨o0, ho0⟩ := list_len_one hout1
    refine ⟨[i0.id, i1.id, i2.id, i3.id, o0.id], ?_⟩
    unfold StridedSliceStage.serializeDataImpl
    rw [hin4, ho0]
    rfl

/-- Counterexample to C2 as stated: a layer whose `begin_mask` is `"x"`
passes translation (which never reads `begin_mask`) and structural
validation, yet the parameter encoder fails with a format error — the masks
are read at serialization time, not captured at construction time. -/
theorem C2_counterexample :
    FrontEnd.parseStridedSlice model0 layerBeginBad ins4 outs1 =
      .ok (model0.addNewStage ⟨layerBeginBad, ins4, outs1⟩,
           ⟨layerBeginBad, ins4, outs1⟩)
    ∧ (⟨layerBeginBad, ins4, outs1⟩ : StridedSliceStage).initialCheckImpl = .ok ()
    ∧ (⟨layerBeginBad, ins4, outs1⟩ : StridedSliceStage).serializeParamsImpl =
        .error (.maskFormat 'x') :=
  ⟨by decide, by decide, by decide⟩

/-- Witness for C2 at a concrete 4-input translation with absent masks. -/
theorem C2_serialization_after_parse_and_check_witness :
    (⟨layerEmpty, ins4, outs1⟩ : StridedSliceStage).serializeParamsImpl = .ok [0, 0]
    ∧ ∃ refs,
        (⟨layerEmpty, ins4, outs1⟩ : StridedSliceStage).serializeDataImpl =
          some refs :=
  C2_serialization_after_parse_and_check model0 layerEmpty ins4 outs1
    (model0.addNewStage ⟨layerEmpty, ins4, outs1⟩) ⟨layerEmpty, ins4, outs1⟩ 0 0
    (by decide) (by decide) (by decide) (by decide)

/-- C6: every stage the frontend constructs (the theorem does not even need
the validation hypothesis — it holds for validated stages in particular, and
regardless of whether input #3 is the placeholder or a real strides tensor)
serializes its parameter block as exactly the two 32-bit values `begin_mask`
then `end_mask`, in that order, and its data block as exactly the 5 buffer
references input #0, #1, #2, #3, output #0, in that order. -/
theorem C6_serialized_layout (model : VpuModel) (layer : CNNLayer)
    (inputs outputs : List DataNode) (m2 : VpuModel) (st : StridedSliceStage)
    (b e : Nat)
    (hp : FrontEnd.parseStridedSlice model layer inputs outputs = .ok (m2, st))
    (hb : maskStrToInt (layer.GetParamAsString beginMaskKey []) = .ok b)
    (hend : maskStrToInt (layer.GetParamAsString endMaskKey []) = .ok e) :
    st.serializeParamsImpl = .ok [b, e] ∧ b < 2 ^ 32 ∧ e < 2 ^ 32 ∧
    ∃ i0 i1 i2 i3 o0, st.inputs = [i0, i1, i2, i3] ∧ st.outputs = [o0] ∧
      st.serializeDataImpl = some [i0.id, i1.id, i2.id, i3.id, o0.id] := by
  obtain ⟨-, h2, -, -, -, hol, hout, hcase⟩ := parse_ok_inv hp
  refine ⟨?_, maskStrToInt_lt hb, maskStrToInt_lt hend, ?_⟩
  · unfold StridedSliceStage.serializeParamsImpl
    rw [hol, hb, hend]
  · have hlen4 : st.inputs.length = 4 := by
      rcases hcase with ⟨h3, hin⟩ | ⟨h4, hin, -⟩
      · rw [hin]
        simp [h3]
      · rw [hin]
        exact h4
    obtain ⟨i0, i1, i2, i3, hin4⟩ := list_len_four hlen4
    have hout1 : st.outputs.length = 1 := by rw [hout]; exact h2
    obtain ⟨o0, ho0⟩ := list_len_one hout1
    refine ⟨i0, i1, i2, i3, o0, hin4, ho0, ?_⟩
    unfold StridedSliceStage.serializeDataImpl
    rw [hin4, ho0]
    rfl

/-- Witness for C6 at a concrete 3-input translation, so input #3 is the
synthesized placeholder. -/
theorem C6_serialized_layout_witness :
    (⟨layerEmpty, ins3 ++ [(model0.addFakeData).2], outs1⟩ : StridedSliceStage).serializeParamsImpl
      = .ok [0, 0]
    ∧ (0 : Nat) < 2 ^ 32 ∧ (0 : Nat) < 2 ^ 32
    ∧ ∃ i0 i1 i2 i3 o0,
        (⟨layerEmpty, ins3 ++ [(model0.addFakeData).2], outs1⟩ : StridedSliceStage).inputs
          = [i0, i1, i2, i3]
        ∧ (⟨layerEmpty, ins3 ++ [(model0.addFakeData).2], outs1⟩ : StridedSliceStage).outputs
          = [o0]
        ∧ (⟨layerEmpty, ins3 ++ [(model0.addFakeData).2], outs1⟩ : StridedSliceStage).serializeDataImpl
          = some [i0.id, i1.id, i2.id, i3.id, o0.id] :=
  C6_serialized_layout model0 layerEmpty ins3 outs1
    ((model0.addFakeData).1.addNewStage
      ⟨layerEmpty, ins3 ++ [(model0.addFakeData).2], outs1⟩)
    ⟨layerEmpty, ins3 ++ [(model0.addFakeData).2], outs1⟩ 0 0
    (by decide) (by decide) (by decide)

/-- C9: `cloneImpl` is a copy construction — the clone is a stage with
identical fields and the same shared tensor references, its two serializers
produce output identical to the original's, and cloning is a total function
performing no validation (it returns no error for any stage, well-formed or
not). -/
theorem C9_clone_identity (s : StridedSliceStage) :
    s.cloneImpl = s
    ∧ s.cloneImpl.origLayer = s.origLayer
    ∧ s.cloneImpl.inputs = s.inputs
    ∧ s.cloneImpl.outputs = s.outputs
    ∧ s.cloneImpl.serializeParamsImpl = s.serializeParamsImpl
    ∧ s.cloneImpl.serializeDataImpl = s.serializeDataImpl :=
  ⟨rfl, rfl, rfl, rfl, rfl, rfl⟩

/-- C10: all five mask attributes are optional — when absent the empty
string is used, which encodes to 0, so a layer lacking the three unsupported
masks passes their checks (a 3-input/1-output translation succeeds outright)
and absent `begin_mask` / `end_mask` serialize as the integer 0. -/
theorem C10_absent_masks_default (layer : CNNLayer)
    (habs : ∀ k ∈ allMaskKeys, layer.params.lookup k = none) :
    (∀ k ∈ allMaskKeys, maskStrToInt (layer.GetParamAsString k []) = .ok 0)
    ∧ (∀ st : StridedSliceStage, st.origLayer = layer →
        st.serializeParamsImpl = .ok [0, 0])
    ∧ (∀ (model : VpuModel) (inputs outputs : List DataNode),
        inputs.length = 3 → outputs.length = 1 →
        ∃ r, FrontEnd.parseStridedSlice model layer inputs outputs = .ok r) := by
  have hget : ∀ k ∈ allMaskKeys, layer.GetParamAsString k [] = [] := by
    intro k hk
    unfold CNNLayer.GetParamAsString
    rw [habs k hk]
  have hmask : ∀ k ∈ allMaskKeys, maskStrToInt (layer.GetParamAsString k []) = .ok 0 := by
    intro k hk
    rw [hget k hk]
    rfl
  refine ⟨hmask, ?_, ?_⟩
  · intro st hol
    unfold StridedSliceStage.serializeParamsImpl
    rw [hol, hmask beginMaskKey (by simp [allMaskKeys]),
      hmask endMaskKey (by simp [allMaskKeys])]
  · intro model inputs outputs h3 h2
    refine ⟨((model.addFakeData).1.addNewStage
        ⟨layer, inputs ++ [(model.addFakeData).2], outputs⟩,
      ⟨layer, inputs ++ [(model.addFakeData).2], outputs⟩), ?_⟩
    rw [parse_checks_passed (Or.inl h3) h2
        (hmask newAxisMaskKey (by simp [allMaskKeys]))
        (hmask shrinkAxisMaskKey (by simp [allMaskKeys]))
        (hmask ellipsisMaskKey (by simp [allMaskKeys])), if_pos h3]

/-- Witness for C10: the attribute-free layer encodes every mask to 0 and a
3-input translation with it succeeds. -/
theorem C10_absent_masks_default_witness :
    maskStrToInt (layerEmpty.GetParamAsString newAxisMaskKey []) = .ok 0
    ∧ ∃ r, FrontEnd.parseStridedSlice model0 layerEmpty ins3 outs1 = .ok r :=
  ⟨(C10_absent_masks_default layerEmpty (by decide)).1 newAxisMaskKey (by decide),
   (C10_absent_masks_default layerEmpty (by decide)).2.2 model0 ins3 outs1
     (by decide) (by decide)⟩

end VpuSS
